import Mathlib

/-
Shallow embedding of the three console assistants (country info toolkit,
mood handoff system, product suggester) for verifying the pipeline spec.

Python strings are modelled as lists of characters; Python `dict` literals
become association lists; the external text-generation call is modelled by
an `Option` parameter (`some text` = the provider returned `text`,
`none` = the call raised and the `except` branch runs).
-/

/-- Python strings, modelled as lists of characters. -/
abbrev PyStr := List Char

/-- Characters of a Lean string literal, used to write `PyStr` constants. -/
def chars (s : String) : PyStr := s.data

/-- Python `str.strip()` (ASCII whitespace, which covers every input used here). -/
def pyStrip (s : PyStr) : PyStr :=
  ((s.dropWhile Char.isWhitespace).reverse.dropWhile Char.isWhitespace).reverse

/-- Python `str.lower()` (ASCII case mapping). -/
def pyLower (s : PyStr) : PyStr := s.map Char.toLower

/-- Python `str.title()`: first letter of each alphabetic run uppercased,
the rest lowercased. The flag records whether the previous char was alphabetic. -/
def pyTitleAux : Bool → PyStr → PyStr
  | _, [] => []
  | prevAlpha, c :: cs =>
    if c.isAlpha then
      (if prevAlpha then c.toLower else c.toUpper) :: pyTitleAux true cs
    else
      c :: pyTitleAux false cs

/-- Python `str.title()`. -/
def pyTitle (s : PyStr) : PyStr := pyTitleAux false s

/-- Python `line.startswith(pat)`. -/
def pyStartswith (pat s : PyStr) : Bool := pat.isPrefixOf s

/-- Python `line.split(":", 1)[1]`: everything after the first colon.
In the source this is only evaluated under a `startswith` guard that
guarantees a colon is present. -/
def afterFirstColon (s : PyStr) : PyStr :=
  (s.dropWhile (fun c => c != ':')).tail

/-- Python line splitting of the stripped response text on newline, the
line decomposition both labeled-response parsers start with. -/
def pyLines (t : PyStr) : List PyStr := (pyStrip t).splitOn '\n'

/-- Python `key in d` for a dict modelled as an association list. -/
def dictContains (d : List (PyStr × PyStr)) (k : PyStr) : Bool :=
  (d.lookup k).isSome

/- ===== country_info_toolkit.py ===== -/

/-- `CountryCapitalTool.country_capitals`. -/
def countryCapitals : List (PyStr × PyStr) :=
  [ (chars "united states", chars "Washington D.C."),
    (chars "usa", chars "Washington D.C."),
    (chars "united kingdom", chars "London"),
    (chars "uk", chars "London"),
    (chars "canada", chars "Ottawa"),
    (chars "australia", chars "Canberra"),
    (chars "india", chars "New Delhi"),
    (chars "germany", chars "Berlin"),
    (chars "france", chars "Paris"),
    (chars "japan", chars "Tokyo"),
    (chars "china", chars "Beijing"),
    (chars "brazil", chars "Brasília"),
    (chars "russia", chars "Moscow"),
    (chars "mexico", chars "Mexico City"),
    (chars "spain", chars "Madrid"),
    (chars "italy", chars "Rome"),
    (chars "south africa", chars "Pretoria"),
    (chars "egypt", chars "Cairo"),
    (chars "argentina", chars "Buenos Aires"),
    (chars "south korea", chars "Seoul") ]

/-- `CountryLanguageTool.country_languages`. -/
def countryLanguages : List (PyStr × PyStr) :=
  [ (chars "united states", chars "English"),
    (chars "usa", chars "English"),
    (chars "united kingdom", chars "English"),
    (chars "uk", chars "English"),
    (chars "canada", chars "English, French"),
    (chars "australia", chars "English"),
    (chars "india", chars "Hindi, English (and 21 other official languages)"),
    (chars "germany", chars "German"),
    (chars "france", chars "French"),
    (chars "japan", chars "Japanese"),
    (chars "china", chars "Mandarin Chinese"),
    (chars "brazil", chars "Portuguese"),
    (chars "russia", chars "Russian"),
    (chars "mexico", chars "Spanish"),
    (chars "spain", chars "Spanish"),
    (chars "italy", chars "Italian"),
    (chars "south africa", chars "11 official languages including Zulu, Xhosa, Afrikaans, English"),
    (chars "egypt", chars "Arabic"),
    (chars "argentina", chars "Spanish"),
    (chars "south korea", chars "Korean") ]

/-- `CountryPopulationTool.country_populations`. -/
def countryPopulations : List (PyStr × PyStr) :=
  [ (chars "united states", chars "341 million"),
    (chars "usa", chars "341 million"),
    (chars "united kingdom", chars "67 million"),
    (chars "uk", chars "67 million"),
    (chars "canada", chars "39 million"),
    (chars "australia", chars "26 million"),
    (chars "india", chars "1.43 billion"),
    (chars "germany", chars "83 million"),
    (chars "france", chars "68 million"),
    (chars "japan", chars "125 million"),
    (chars "china", chars "1.42 billion"),
    (chars "brazil", chars "216 million"),
    (chars "russia", chars "144 million"),
    (chars "mexico", chars "128 million"),
    (chars "spain", chars "48 million"),
    (chars "italy", chars "59 million"),
    (chars "south africa", chars "60 million"),
    (chars "egypt", chars "110 million"),
    (chars "argentina", chars "46 million"),
    (chars "south korea", chars "52 million") ]

/-- Result dict returned by the `execute` method of a tool: either
`{"status": "success", "<field>": value, "country": country_name.title()}`
or `{"status": "error", "message": ...}`. -/
inductive ToolResult where
  | success (value country : PyStr)
  | error (message : PyStr)
deriving DecidableEq

/-- `tool_result["status"] == "success"`. -/
def ToolResult.isSuccess : ToolResult → Bool
  | .success _ _ => true
  | .error _ => false

/-- The looked-up field value of a tool result, when the lookup succeeded. -/
def ToolResult.fieldValue : ToolResult → Option PyStr
  | .success v _ => some v
  | .error _ => none

/-- Common body of the three `execute` methods: normalize the key
(`strip().lower()`), return the stored value on a hit, otherwise an error
message ending in the original input. -/
def toolExecute (table : List (PyStr × PyStr)) (errPrefix : PyStr)
    (countryName : PyStr) : ToolResult :=
  match table.lookup (pyLower (pyStrip countryName)) with
  | some v => .success v (pyTitle countryName)
  | none => .error (errPrefix ++ countryName)

/-- `CountryCapitalTool.execute`. -/
def capitalExecute : PyStr → ToolResult :=
  toolExecute countryCapitals (chars "Capital information not available for ")

/-- `CountryLanguageTool.execute`. -/
def languageExecute : PyStr → ToolResult :=
  toolExecute countryLanguages (chars "Language information not available for ")

/-- `CountryPopulationTool.execute`. -/
def populationExecute : PyStr → ToolResult :=
  toolExecute countryPopulations (chars "Population information not available for ")

/-- Result dict of `CountryInfoOrchestrator.validate_country`. -/
structure Validation where
  is_valid : Bool
  exists_in_capitals : Bool
  exists_in_languages : Bool
  exists_in_populations : Bool
deriving DecidableEq

/-- `CountryInfoOrchestrator.validate_country`. -/
def validateCountry (countryName : PyStr) : Validation :=
  let countryLower := pyLower (pyStrip countryName)
  let existsInCapitals := dictContains countryCapitals countryLower
  let existsInLanguages := dictContains countryLanguages countryLower
  let existsInPopulations := dictContains countryPopulations countryLower
  { is_valid := existsInCapitals || existsInLanguages || existsInPopulations,
    exists_in_capitals := existsInCapitals,
    exists_in_languages := existsInLanguages,
    exists_in_populations := existsInPopulations }

/-- Result dict of `CountryInfoOrchestrator.execute_all_tools`. -/
structure ToolResults where
  country : PyStr
  capital : ToolResult
  language : ToolResult
  population : ToolResult
  all_successful : Bool
deriving DecidableEq

/-- `CountryInfoOrchestrator.execute_all_tools`: run the three tools and
fold the `status == "error"` check over their results. -/
def executeAllTools (countryName : PyStr) : ToolResults :=
  let c := capitalExecute countryName
  let l := languageExecute countryName
  let p := populationExecute countryName
  { country := pyTitle countryName,
    capital := c,
    language := l,
    population := p,
    all_successful :=
      List.foldl (fun acc r => if r.isSuccess then acc else false) true [c, l, p] }

/-- Header block of `_create_fallback_report` (the first f-string). -/
def fallbackHeader (country : PyStr) : PyStr :=
  chars "\n        🌍 COUNTRY INFORMATION: " ++ country ++ chars "\n        "
    ++ List.replicate 50 '=' ++ chars "\n        \n        "

/-- Capital line of `_create_fallback_report`. -/
def fallbackCapitalLine : ToolResult → PyStr
  | .success v _ => chars "🏛️  Capital: " ++ v ++ chars "\n"
  | .error _ => chars "❌ Capital: Information not available\n"

/-- Language line of `_create_fallback_report`. -/
def fallbackLanguageLine : ToolResult → PyStr
  | .success v _ => chars "🗣️  Language: " ++ v ++ chars "\n"
  | .error _ => chars "❌ Language: Information not available\n"

/-- Population line of `_create_fallback_report`. -/
def fallbackPopulationLine : ToolResult → PyStr
  | .success v _ => chars "👥 Population: " ++ v ++ chars "\n"
  | .error _ => chars "❌ Population: Information not available\n"

/-- Footer block of `_create_fallback_report` (the closing f-string). -/
def fallbackFooter : PyStr :=
  chars "\n        " ++ List.replicate 50 '='
    ++ chars "\n        ℹ️  Note: This information is from our database. \n        For the most current data, please refer to official sources.\n        "

/-- `CountryInfoOrchestrator._create_fallback_report`. -/
def createFallbackReport (tr : ToolResults) : PyStr :=
  fallbackHeader tr.country
    ++ fallbackCapitalLine tr.capital
    ++ fallbackLanguageLine tr.language
    ++ fallbackPopulationLine tr.population
    ++ fallbackFooter

/-- The fallback report as rendered when all three tools succeeded: every
category line carries the stored value (the success branch of each `if`),
so no `Information not available` marker line is emitted. -/
def fallbackFromStored (country capital language population : PyStr) : PyStr :=
  fallbackHeader country
    ++ (chars "🏛️  Capital: " ++ capital ++ chars "\n")
    ++ (chars "🗣️  Language: " ++ language ++ chars "\n")
    ++ (chars "👥 Population: " ++ population ++ chars "\n")
    ++ fallbackFooter

/-- `CountryInfoOrchestrator.generate_complete_report`: `gen` is the outcome
of `self.model.generate_content(prompt).text` (`none` means the call raised,
taking the `except` branch to the fallback formatter). -/
def generateCompleteReport (gen : Option PyStr) (tr : ToolResults) : PyStr :=
  match gen with
  | some text => text
  | none => createFallbackReport tr

/-- Result dict of `CountryInfoOrchestrator.process_country_query`: the
error branch carries `message`/`suggestions`, the success branch carries
`country`/`tool_results`/`report`/`validation`. -/
inductive ProcessResult where
  | error (message suggestions : PyStr)
  | success (country : PyStr) (toolResults : ToolResults) (report : PyStr)
      (validation : Validation)
deriving DecidableEq

/-- `process_country_query` outcome plus a trace flag recording whether
control reached the generation step (`generate_complete_report`). -/
structure ProcessOutcome where
  result : ProcessResult
  generationInvoked : Bool
deriving DecidableEq

/-- `CountryInfoOrchestrator.process_country_query`. -/
def processCountryQuery (gen : Option PyStr) (countryName : PyStr) : ProcessOutcome :=
  let validation := validateCountry countryName
  if validation.is_valid then
    let tr := executeAllTools countryName
    { result := .success (pyTitle countryName) tr (generateCompleteReport gen tr) validation,
      generationInvoked := true }
  else
    { result := .error
        (chars "Sorry, I don\x27t have information about \x27" ++ countryName
          ++ chars "\x27 in my database.")
        (chars "Try countries like USA, India, Germany, Japan, Brazil, etc."),
      generationInvoked := false }

/- ===== mood_handoff.py ===== -/

/-- The dict `{"mood": ..., "confidence": ...}` returned by mood analysis. -/
structure MoodData where
  mood : PyStr
  confidence : PyStr
deriving DecidableEq

/-- One iteration of the line loop in
`MoodAnalyzerAgent._parse_mood_response`: a line starting with `"MOOD:"`
rebinds `mood`, else a line starting with `"CONFIDENCE:"` rebinds
`confidence`, any other line is ignored. -/
def parseMoodLine (acc : MoodData) (line : PyStr) : MoodData :=
  if pyStartswith (chars "MOOD:") line then
    { acc with mood := pyLower (pyStrip (afterFirstColon line)) }
  else if pyStartswith (chars "CONFIDENCE:") line then
    { acc with confidence := pyLower (pyStrip (afterFirstColon line)) }
  else
    acc

/-- `_parse_mood_response` generalized over the initial dict (the source
hardcodes mood `"neutral"` and confidence `"medium"`): fold the line
loop over the stripped response text split on newline. -/
def parseMoodResponseFrom (init : MoodData) (text : PyStr) : MoodData :=
  List.foldl parseMoodLine init (pyLines text)

/-- `MoodAnalyzerAgent._parse_mood_response`. -/
def parseMoodResponse (text : PyStr) : MoodData :=
  parseMoodResponseFrom { mood := chars "neutral", confidence := chars "medium" } text

/-- `MoodAnalyzerAgent.analyze_mood`: `resp` is the generation outcome;
on an exception (`none`) the `except` branch returns the neutral default. -/
def analyzeMood (resp : Option PyStr) : MoodData :=
  match resp with
  | some t => parseMoodResponse t
  | none => { mood := chars "neutral", confidence := chars "medium" }

/-- The mood list `["sad", "stressed", "anxious", "angry"]` gating the
handoff in `MoodHandoffSystem.run` and `ActivitySuggesterAgent.suggest_activity`. -/
def interventionMoods : List PyStr :=
  [chars "sad", chars "stressed", chars "anxious", chars "angry"]

/-- `ActivitySuggesterAgent.activity_templates`. -/
def activityTemplates : List (PyStr × List PyStr) :=
  [ (chars "sad",
      [ chars "Take a walk in nature 🌳",
        chars "Listen to uplifting music 🎵",
        chars "Write in a journal 📝",
        chars "Call a friend or loved one 📞",
        chars "Watch a favorite movie 🎬" ]),
    (chars "stressed",
      [ chars "Practice deep breathing exercises 🧘",
        chars "Try a short meditation session ☯️",
        chars "Do some light stretching or yoga 💪",
        chars "Take a warm bath 🛁",
        chars "Drink herbal tea 🍵" ]),
    (chars "anxious",
      [ chars "Practice 4-7-8 breathing technique 🌬️",
        chars "Use the 5-4-3-2-1 grounding method 🌍",
        chars "Write down your thoughts 📝",
        chars "Listen to calming sounds 🌊",
        chars "Progressive muscle relaxation 💆" ]),
    (chars "angry",
      [ chars "Physical exercise (running, boxing) 🏃",
        chars "Punch a pillow or scream into it 😤",
        chars "Write a letter (but don\x27t send it) ✉️",
        chars "Count slowly to 10 🔢",
        chars "Listen to heavy metal music 🎸" ]) ]

/-- `ActivitySuggesterAgent._get_fallback_activity`: `random.choice` is
modelled by an index `choiceIx` reduced modulo the list length. -/
def getFallbackActivity (mood : PyStr) (choiceIx : Nat) : PyStr :=
  let activities := (activityTemplates.lookup mood).getD
    [chars "Take a break and breathe deeply 🌬️"]
  activities.getD (choiceIx % activities.length) (chars "")

/-- `ActivitySuggesterAgent.suggest_activity`: positive moods get the
fixed message; otherwise `activityResp` is the generation outcome and
`none` takes the `except` branch built from a template activity. -/
def suggestActivity (mood userMessage : PyStr) (activityResp : Option PyStr)
    (choiceIx : Nat) : PyStr :=
  if mood ∈ interventionMoods then
    match activityResp with
    | some t => pyStrip t
    | none =>
      chars "ACTIVITY: " ++ getFallbackActivity mood choiceIx
        ++ chars "\nEXPLANATION: This activity can help improve your mood when feeling "
        ++ mood ++ chars "."
  else
    chars "Your mood \x27" ++ mood
      ++ chars "\x27 seems positive! 😊 Keep doing what makes you happy!"

/-- Result dict of `MoodHandoffSystem.run`. -/
structure RunResult where
  user_message : PyStr
  mood_analysis : MoodData
  activity_suggestion : Option PyStr
deriving DecidableEq

/-- `MoodHandoffSystem.run` outcome plus a trace flag recording whether
control handed off to the activity-suggester agent. -/
structure RunOutcome where
  result : RunResult
  suggesterInvoked : Bool
deriving DecidableEq

/-- `MoodHandoffSystem.run`: `moodResp` and `activityResp` are the two
generation outcomes, `choiceIx` resolves the fallback `random.choice`. -/
def moodHandoffRun (moodResp activityResp : Option PyStr) (choiceIx : Nat)
    (userMessage : PyStr) : RunOutcome :=
  let ma := analyzeMood moodResp
  if ma.mood ∈ interventionMoods then
    { result :=
        { user_message := userMessage,
          mood_analysis := ma,
          activity_suggestion :=
            some (suggestActivity ma.mood userMessage activityResp choiceIx) },
      suggesterInvoked := true }
  else
    { result :=
        { user_message := userMessage,
          mood_analysis := ma,
          activity_suggestion := none },
      suggesterInvoked := false }

/- ===== product_suggester.py ===== -/

/-- Analysis dict of `ProductSuggester._parse_analysis_response`. -/
structure Analysis where
  category : PyStr
  severity : PyStr
  symptoms : List PyStr
  potential_products : List PyStr
deriving DecidableEq

/-- One iteration of the line loop in `_parse_analysis_response`:
`CATEGORY:`/`SEVERITY:` values are trimmed and lower-cased, the
comma-separated `SYMPTOMS:`/`POTENTIAL_PRODUCTS:` values are split on `,`
with each element trimmed. -/
def parseAnalysisLine (acc : Analysis) (line : PyStr) : Analysis :=
  if pyStartswith (chars "CATEGORY:") line then
    { acc with category := pyLower (pyStrip (afterFirstColon line)) }
  else if pyStartswith (chars "SEVERITY:") line then
    { acc with severity := pyLower (pyStrip (afterFirstColon line)) }
  else if pyStartswith (chars "SYMPTOMS:") line then
    { acc with symptoms := ((pyStrip (afterFirstColon line)).splitOn ',').map pyStrip }
  else if pyStartswith (chars "POTENTIAL_PRODUCTS:") line then
    { acc with potential_products :=
        ((pyStrip (afterFirstColon line)).splitOn ',').map pyStrip }
  else
    acc

/-- `ProductSuggester._parse_analysis_response`. -/
def parseAnalysisResponse (text : PyStr) : Analysis :=
  List.foldl parseAnalysisLine
    { category := chars "unknown", severity := chars "unknown",
      symptoms := [], potential_products := [] }
    (pyLines text)

/- ===== interactive loops (all three programs) ===== -/

/-- What one iteration of an interactive loop does with a raw input line. -/
inductive LoopAction where
  | exitSession
  | reprompt
  | process
deriving DecidableEq

/-- Common shape of the three `run_interactive` loop bodies:
`input(...).strip()`, exit when the lower-cased input is a sentinel token,
re-prompt when it is empty, otherwise process the query. -/
def loopAction (tokens : List PyStr) (raw : PyStr) : LoopAction :=
  let userInput := pyStrip raw
  if pyLower userInput ∈ tokens then .exitSession
  else if userInput = [] then .reprompt
  else .process

/-- Sentinel tokens of `CountryInfoBot.run_interactive`. -/
def countryExitTokens : List PyStr :=
  [chars "quit", chars "exit", chars "bye", chars "stop"]

/-- Sentinel tokens of `MoodHandoffSystem.run_interactive`. -/
def moodExitTokens : List PyStr :=
  [chars "quit", chars "exit", chars "bye"]

/-- Sentinel tokens of `ProductSuggester.run_interactive`. -/
def productExitTokens : List PyStr :=
  [chars "quit", chars "exit", chars "bye", chars "goodbye"]

/-- Loop body of `CountryInfoBot.run_interactive`. -/
def countryLoopAction : PyStr → LoopAction := loopAction countryExitTokens

/-- Loop body of `MoodHandoffSystem.run_interactive`. -/
def moodLoopAction : PyStr → LoopAction := loopAction moodExitTokens

/-- Loop body of `ProductSuggester.run_interactive`. -/
def productLoopAction : PyStr → LoopAction := loopAction productExitTokens

/- ===== helper lemmas ===== -/

/-- Association lists with the same key sequence succeed or fail together. -/
theorem lookup_isSome_congr {l₁ l₂ : List (PyStr × PyStr)}
    (h : l₁.map Prod.fst = l₂.map Prod.fst) (k : PyStr) :
    (l₁.lookup k).isSome = (l₂.lookup k).isSome := by
  induction l₁ generalizing l₂ with
  | nil =>
    cases l₂ with
    | nil => rfl
    | cons b t => simp at h
  | cons a t ih =>
    cases l₂ with
    | nil => simp at h
    | cons b t₂ =>
      obtain ⟨a1, a2⟩ := a
      obtain ⟨b1, b2⟩ := b
      simp only [List.map_cons, List.cons.injEq] at h
      obtain ⟨h1, h2⟩ := h
      subst h1
      by_cases hk : k = a1
      · subst hk
        simp [List.lookup]
      · have hkb : (k == a1) = false := beq_eq_false_iff_ne.mpr hk
        simp only [List.lookup, hkb]
        exact ih h2

/-- The three country tables list their keys in the same order. -/
theorem capitals_languages_keys :
    countryCapitals.map Prod.fst = countryLanguages.map Prod.fst := by decide

/-- The three country tables list their keys in the same order. -/
theorem capitals_populations_keys :
    countryCapitals.map Prod.fst = countryPopulations.map Prod.fst := by decide

/-- A country that `validate_country` accepts has an entry in all three
tables (their key sets coincide). -/
theorem valid_lookups {name : PyStr} (h : (validateCountry name).is_valid = true) :
    ∃ cap lang pop,
      countryCapitals.lookup (pyLower (pyStrip name)) = some cap
    ∧ countryLanguages.lookup (pyLower (pyStrip name)) = some lang
    ∧ countryPopulations.lookup (pyLower (pyStrip name)) = some pop := by
  simp only [validateCountry, dictContains] at h
  have hl := lookup_isSome_congr capitals_languages_keys (pyLower (pyStrip name))
  have hp := lookup_isSome_congr capitals_populations_keys (pyLower (pyStrip name))
  rw [← hl, ← hp, Bool.or_self, Bool.or_self] at h
  obtain ⟨cap, hcap⟩ := Option.isSome_iff_exists.mp h
  obtain ⟨lang, hlang⟩ := Option.isSome_iff_exists.mp (hl.symm.trans h)
  obtain ⟨pop, hpop⟩ := Option.isSome_iff_exists.mp (hp.symm.trans h)
  exact ⟨cap, lang, pop, hcap, hlang, hpop⟩

/-- The mood field survives every line that does not start with `"MOOD:"`. -/
theorem foldl_parseMoodLine_mood_eq (ls : List PyStr) (acc : MoodData)
    (h : ∀ l ∈ ls, pyStartswith (chars "MOOD:") l = false) :
    (List.foldl parseMoodLine acc ls).mood = acc.mood := by
  induction ls generalizing acc with
  | nil => rfl
  | cons x t ih =>
    rw [List.foldl_cons, ih _ (fun l hl => h l (List.mem_cons_of_mem _ hl))]
    have hx := h x (List.mem_cons_self _ _)
    simp only [parseMoodLine, hx, Bool.false_eq_true, if_false]
    split <;> rfl

/-- The confidence field survives every line that does not start with
`"CONFIDENCE:"`. -/
theorem foldl_parseMoodLine_confidence_eq (ls : List PyStr) (acc : MoodData)
    (h : ∀ l ∈ ls, pyStartswith (chars "CONFIDENCE:") l = false) :
    (List.foldl parseMoodLine acc ls).confidence = acc.confidence := by
  induction ls generalizing acc with
  | nil => rfl
  | cons x t ih =>
    rw [List.foldl_cons, ih _ (fun l hl => h l (List.mem_cons_of_mem _ hl))]
    have hx := h x (List.mem_cons_self _ _)
    simp only [parseMoodLine, hx, Bool.false_eq_true, if_false]
    split <;> rfl

/-- The category field survives every line that does not start with
`"CATEGORY:"`. -/
theorem foldl_parseAnalysisLine_category_eq (ls : List PyStr) (acc : Analysis)
    (h : ∀ l ∈ ls, pyStartswith (chars "CATEGORY:") l = false) :
    (List.foldl parseAnalysisLine acc ls).category = acc.category := by
  induction ls generalizing acc with
  | nil => rfl
  | cons x t ih =>
    rw [List.foldl_cons, ih _ (fun l hl => h l (List.mem_cons_of_mem _ hl))]
    have hx := h x (List.mem_cons_self _ _)
    simp only [parseAnalysisLine, hx, Bool.false_eq_true, if_false]
    split <;> first | rfl | (split <;> first | rfl | (split <;> rfl))

/-- The severity field survives every line that does not start with
`"SEVERITY:"`. -/
theorem foldl_parseAnalysisLine_severity_eq (ls : List PyStr) (acc : Analysis)
    (h : ∀ l ∈ ls, pyStartswith (chars "SEVERITY:") l = false) :
    (List.foldl parseAnalysisLine acc ls).severity = acc.severity := by
  induction ls generalizing acc with
  | nil => rfl
  | cons x t ih =>
    rw [List.foldl_cons, ih _ (fun l hl => h l (List.mem_cons_of_mem _ hl))]
    have hx := h x (List.mem_cons_self _ _)
    simp only [parseAnalysisLine, hx, Bool.false_eq_true, if_false]
    split <;> first | rfl | (split <;> first | rfl | (split <;> rfl))

/-- The symptoms field survives every line that does not start with
`"SYMPTOMS:"`. -/
theorem foldl_parseAnalysisLine_symptoms_eq (ls : List PyStr) (acc : Analysis)
    (h : ∀ l ∈ ls, pyStartswith (chars "SYMPTOMS:") l = false) :
    (List.foldl parseAnalysisLine acc ls).symptoms = acc.symptoms := by
  induction ls generalizing acc with
  | nil => rfl
  | cons x t ih =>
    rw [List.foldl_cons, ih _ (fun l hl => h l (List.mem_cons_of_mem _ hl))]
    have hx := h x (List.mem_cons_self _ _)
    simp only [parseAnalysisLine, hx, Bool.false_eq_true, if_false]
    split <;> first | rfl | (split <;> first | rfl | (split <;> rfl))

/-- The potential-products field survives every line that does not start
with `"POTENTIAL_PRODUCTS:"`. -/
theorem foldl_parseAnalysisLine_products_eq (ls : List PyStr) (acc : Analysis)
    (h : ∀ l ∈ ls, pyStartswith (chars "POTENTIAL_PRODUCTS:") l = false) :
    (List.foldl parseAnalysisLine acc ls).potential_products
      = acc.potential_products := by
  induction ls generalizing acc with
  | nil => rfl
  | cons x t ih =>
    rw [List.foldl_cons, ih _ (fun l hl => h l (List.mem_cons_of_mem _ hl))]
    have hx := h x (List.mem_cons_self _ _)
    simp only [parseAnalysisLine, hx, Bool.false_eq_true, if_false]
    split <;> first | rfl | (split <;> first | rfl | (split <;> rfl))

/-- A line of the form `"MOOD:" ++ rest` rebinds the mood to
`rest.strip().lower()` (the text after the first colon, which sits at the
end of the label). -/
theorem parseMoodLine_mood_bind (acc : MoodData) (rest : PyStr) :
    (parseMoodLine acc (chars "MOOD:" ++ rest)).mood = pyLower (pyStrip rest) := by
  have hpre : pyStartswith (chars "MOOD:") (chars "MOOD:" ++ rest) = true := by
    simp [pyStartswith, List.isPrefixOf_iff_prefix, List.prefix_append]
  have hcol : afterFirstColon (chars "MOOD:" ++ rest) = rest := rfl
  simp [parseMoodLine, hpre, hcol]

/-- A line of the form `"CATEGORY:" ++ rest` rebinds the category to
`rest.strip().lower()`. -/
theorem parseAnalysisLine_category_bind (acc : Analysis) (rest : PyStr) :
    (parseAnalysisLine acc (chars "CATEGORY:" ++ rest)).category
      = pyLower (pyStrip rest) := by
  have hpre : pyStartswith (chars "CATEGORY:") (chars "CATEGORY:" ++ rest) = true := by
    simp [pyStartswith, List.isPrefixOf_iff_prefix, List.prefix_append]
  have hcol : afterFirstColon (chars "CATEGORY:" ++ rest) = rest := rfl
  simp [parseAnalysisLine, hpre, hcol]

/-- A line of the form `"CONFIDENCE:" ++ rest` misses the `MOOD:` guard and
rebinds the confidence to `rest.strip().lower()`. -/
theorem parseMoodLine_confidence_bind (acc : MoodData) (rest : PyStr) :
    (parseMoodLine acc (chars "CONFIDENCE:" ++ rest)).confidence
      = pyLower (pyStrip rest) := by
  have h1 : pyStartswith (chars "MOOD:") (chars "CONFIDENCE:" ++ rest) = false := rfl
  have h2 : pyStartswith (chars "CONFIDENCE:") (chars "CONFIDENCE:" ++ rest) = true := by
    simp [pyStartswith, List.isPrefixOf_iff_prefix, List.prefix_append]
  have hcol : afterFirstColon (chars "CONFIDENCE:" ++ rest) = rest := rfl
  simp [parseMoodLine, h1, h2, hcol]

/-- A line of the form `"SEVERITY:" ++ rest` misses the `CATEGORY:` guard
and rebinds the severity to `rest.strip().lower()`. -/
theorem parseAnalysisLine_severity_bind (acc : Analysis) (rest : PyStr) :
    (parseAnalysisLine acc (chars "SEVERITY:" ++ rest)).severity
      = pyLower (pyStrip rest) := by
  have h1 : pyStartswith (chars "CATEGORY:") (chars "SEVERITY:" ++ rest) = false := rfl
  have h2 : pyStartswith (chars "SEVERITY:") (chars "SEVERITY:" ++ rest) = true := by
    simp [pyStartswith, List.isPrefixOf_iff_prefix, List.prefix_append]
  have hcol : afterFirstColon (chars "SEVERITY:" ++ rest) = rest := rfl
  simp [parseAnalysisLine, h1, h2, hcol]

/-- A line of the form `"SYMPTOMS:" ++ rest` misses the earlier guards and
rebinds the symptoms to the comma-split, element-trimmed remainder. -/
theorem parseAnalysisLine_symptoms_bind (acc : Analysis) (rest : PyStr) :
    (parseAnalysisLine acc (chars "SYMPTOMS:" ++ rest)).symptoms
      = ((pyStrip rest).splitOn ',').map pyStrip := by
  have h1 : pyStartswith (chars "CATEGORY:") (chars "SYMPTOMS:" ++ rest) = false := rfl
  have h2 : pyStartswith (chars "SEVERITY:") (chars "SYMPTOMS:" ++ rest) = false := rfl
  have h3 : pyStartswith (chars "SYMPTOMS:") (chars "SYMPTOMS:" ++ rest) = true := by
    simp [pyStartswith, List.isPrefixOf_iff_prefix, List.prefix_append]
  have hcol : afterFirstColon (chars "SYMPTOMS:" ++ rest) = rest := rfl
  simp [parseAnalysisLine, h1, h2, h3, hcol]

/-- A line of the form `"POTENTIAL_PRODUCTS:" ++ rest` misses the earlier
guards and rebinds the potential products to the comma-split,
element-trimmed remainder. -/
theorem parseAnalysisLine_products_bind (acc : Analysis) (rest : PyStr) :
    (parseAnalysisLine acc (chars "POTENTIAL_PRODUCTS:" ++ rest)).potential_products
      = ((pyStrip rest).splitOn ',').map pyStrip := by
  have h1 : pyStartswith (chars "CATEGORY:") (chars "POTENTIAL_PRODUCTS:" ++ rest) = false := rfl
  have h2 : pyStartswith (chars "SEVERITY:") (chars "POTENTIAL_PRODUCTS:" ++ rest) = false := rfl
  have h3 : pyStartswith (chars "SYMPTOMS:") (chars "POTENTIAL_PRODUCTS:" ++ rest) = false := rfl
  have h4 : pyStartswith (chars "POTENTIAL_PRODUCTS:") (chars "POTENTIAL_PRODUCTS:" ++ rest) = true := by
    simp [pyStartswith, List.isPrefixOf_iff_prefix, List.prefix_append]
  have hcol : afterFirstColon (chars "POTENTIAL_PRODUCTS:" ++ rest) = rest := rfl
  simp [parseAnalysisLine, h1, h2, h3, h4, hcol]

/-- Characterization of one interactive loop step: exit exactly on a
sentinel token, re-prompt exactly on input that strips to empty. -/
theorem loopAction_spec (tokens : List PyStr) (raw : PyStr)
    (hne : ([] : PyStr) ∉ tokens) :
    (loopAction tokens raw = .exitSession ↔ pyLower (pyStrip raw) ∈ tokens)
  ∧ (loopAction tokens raw = .reprompt ↔ pyStrip raw = []) := by
  unfold loopAction
  by_cases hm : pyLower (pyStrip raw) ∈ tokens
  · have hz : ¬(pyStrip raw = []) := by
      intro hz
      rw [hz] at hm
      exact hne hm
    simp [hm, hz]
  · by_cases he : pyStrip raw = []
    · rw [he] at hm
      simp [hm, he]
    · simp [hm, he]

/- ===== claim theorems ===== -/

/-- C1 counterexample: label matching in `_parse_mood_response` is
case-sensitive, so `"mood: happy"` does not bind the mood field while
`"MOOD: happy"` does — the claim that both bind it to the same value is
false. -/
theorem parse_label_case_insensitive_cex :
    (parseMoodResponse (chars "mood: happy")).mood = chars "neutral"
  ∧ (parseMoodResponse (chars "MOOD: happy")).mood = chars "happy"
  ∧ (parseMoodResponse (chars "mood: happy")).mood
      ≠ (parseMoodResponse (chars "MOOD: happy")).mood := by
  decide

/-- C1 (amended): for every input line list and every expected field of
both parsers, a line matches a field exactly when it starts with the
uppercase label of the field followed by a colon, compared case-sensitively;
the bound value is the remainder of the line trimmed, lower-cased for the
enum-like fields `MOOD`/`CONFIDENCE`/`CATEGORY`/`SEVERITY` and comma-split
with trimmed elements for `SYMPTOMS`/`POTENTIAL_PRODUCTS`, the last
matching line winning. -/
theorem parse_label_uppercase_binding :
    (∀ (pre post : List PyStr) (rest : PyStr) (init : MoodData),
        (∀ l ∈ post, pyStartswith (chars "MOOD:") l = false) →
        (List.foldl parseMoodLine init (pre ++ (chars "MOOD:" ++ rest) :: post)).mood
          = pyLower (pyStrip rest))
  ∧ (∀ (pre post : List PyStr) (rest : PyStr) (init : MoodData),
        (∀ l ∈ post, pyStartswith (chars "CONFIDENCE:") l = false) →
        (List.foldl parseMoodLine init
            (pre ++ (chars "CONFIDENCE:" ++ rest) :: post)).confidence
          = pyLower (pyStrip rest))
  ∧ (∀ (pre post : List PyStr) (rest : PyStr) (init : Analysis),
        (∀ l ∈ post, pyStartswith (chars "CATEGORY:") l = false) →
        (List.foldl parseAnalysisLine init
            (pre ++ (chars "CATEGORY:" ++ rest) :: post)).category
          = pyLower (pyStrip rest))
  ∧ (∀ (pre post : List PyStr) (rest : PyStr) (init : Analysis),
        (∀ l ∈ post, pyStartswith (chars "SEVERITY:") l = false) →
        (List.foldl parseAnalysisLine init
            (pre ++ (chars "SEVERITY:" ++ rest) :: post)).severity
          = pyLower (pyStrip rest))
  ∧ (∀ (pre post : List PyStr) (rest : PyStr) (init : Analysis),
        (∀ l ∈ post, pyStartswith (chars "SYMPTOMS:") l = false) →
        (List.foldl parseAnalysisLine init
            (pre ++ (chars "SYMPTOMS:" ++ rest) :: post)).symptoms
          = ((pyStrip rest).splitOn ',').map pyStrip)
  ∧ (∀ (pre post : List PyStr) (rest : PyStr) (init : Analysis),
        (∀ l ∈ post, pyStartswith (chars "POTENTIAL_PRODUCTS:") l = false) →
        (List.foldl parseAnalysisLine init
            (pre ++ (chars "POTENTIAL_PRODUCTS:" ++ rest) :: post)).potential_products
          = ((pyStrip rest).splitOn ',').map pyStrip) := by
  refine ⟨?_, ?_, ?_, ?_, ?_, ?_⟩
  · intro pre post rest init h
    rw [List.foldl_append, List.foldl_cons,
      foldl_parseMoodLine_mood_eq _ _ h, parseMoodLine_mood_bind]
  · intro pre post rest init h
    rw [List.foldl_append, List.foldl_cons,
      foldl_parseMoodLine_confidence_eq _ _ h, parseMoodLine_confidence_bind]
  · intro pre post rest init h
    rw [List.foldl_append, List.foldl_cons,
      foldl_parseAnalysisLine_category_eq _ _ h, parseAnalysisLine_category_bind]
  · intro pre post rest init h
    rw [List.foldl_append, List.foldl_cons,
      foldl_parseAnalysisLine_severity_eq _ _ h, parseAnalysisLine_severity_bind]
  · intro pre post rest init h
    rw [List.foldl_append, List.foldl_cons,
      foldl_parseAnalysisLine_symptoms_eq _ _ h, parseAnalysisLine_symptoms_bind]
  · intro pre post rest init h
    rw [List.foldl_append, List.foldl_cons,
      foldl_parseAnalysisLine_products_eq _ _ h, parseAnalysisLine_products_bind]

/-- Witness for the amended C1 at a concrete one-line input for each of the
six expected fields. -/
theorem parse_label_uppercase_binding_w :
    (List.foldl parseMoodLine { mood := chars "neutral", confidence := chars "medium" }
        ([] ++ (chars "MOOD:" ++ chars " Happy") :: [])).mood
        = pyLower (pyStrip (chars " Happy"))
  ∧ (List.foldl parseMoodLine { mood := chars "neutral", confidence := chars "medium" }
        ([] ++ (chars "CONFIDENCE:" ++ chars " High") :: [])).confidence
        = pyLower (pyStrip (chars " High"))
  ∧ (List.foldl parseAnalysisLine
        { category := chars "unknown", severity := chars "unknown",
          symptoms := [], potential_products := [] }
        ([] ++ (chars "CATEGORY:" ++ chars " Pain_Relief") :: [])).category
        = pyLower (pyStrip (chars " Pain_Relief"))
  ∧ (List.foldl parseAnalysisLine
        { category := chars "unknown", severity := chars "unknown",
          symptoms := [], potential_products := [] }
        ([] ++ (chars "SEVERITY:" ++ chars " Mild") :: [])).severity
        = pyLower (pyStrip (chars " Mild"))
  ∧ (List.foldl parseAnalysisLine
        { category := chars "unknown", severity := chars "unknown",
          symptoms := [], potential_products := [] }
        ([] ++ (chars "SYMPTOMS:" ++ chars " headache, nausea") :: [])).symptoms
        = ((pyStrip (chars " headache, nausea")).splitOn ',').map pyStrip
  ∧ (List.foldl parseAnalysisLine
        { category := chars "unknown", severity := chars "unknown",
          symptoms := [], potential_products := [] }
        ([] ++ (chars "POTENTIAL_PRODUCTS:" ++ chars " PainAway Extra Strength") :: [])).potential_products
        = ((pyStrip (chars " PainAway Extra Strength")).splitOn ',').map pyStrip :=
  ⟨parse_label_uppercase_binding.1 [] [] (chars " Happy")
      { mood := chars "neutral", confidence := chars "medium" } (by simp),
   parse_label_uppercase_binding.2.1 [] [] (chars " High")
      { mood := chars "neutral", confidence := chars "medium" } (by simp),
   parse_label_uppercase_binding.2.2.1 [] [] (chars " Pain_Relief")
      { category := chars "unknown", severity := chars "unknown",
        symptoms := [], potential_products := [] } (by simp),
   parse_label_uppercase_binding.2.2.2.1 [] [] (chars " Mild")
      { category := chars "unknown", severity := chars "unknown",
        symptoms := [], potential_products := [] } (by simp),
   parse_label_uppercase_binding.2.2.2.2.1 [] [] (chars " headache, nausea")
      { category := chars "unknown", severity := chars "unknown",
        symptoms := [], potential_products := [] } (by simp),
   parse_label_uppercase_binding.2.2.2.2.2 [] [] (chars " PainAway Extra Strength")
      { category := chars "unknown", severity := chars "unknown",
        symptoms := [], potential_products := [] } (by simp)⟩

/-- C2 counterexample: the full result records of `execute("  USA ")` and
`execute("usa")` are not identical — the `country` field title-cases the
original input, keeping its padding. -/
theorem lookup_full_record_insensitive_cex :
    capitalExecute (chars "  USA ") ≠ capitalExecute (chars "usa") := by decide

/-- C2 (amended): the `execute` method of a tool is case- and whitespace-insensitive in
its lookup outcome: two inputs with the same normalized form yield the same
status and the same looked-up field value; only the echoed `country` field
(and the error message) reflect the original casing and padding. -/
theorem lookup_value_insensitive (table : List (PyStr × PyStr))
    (errPrefix a b : PyStr)
    (h : pyLower (pyStrip a) = pyLower (pyStrip b)) :
    (toolExecute table errPrefix a).fieldValue
        = (toolExecute table errPrefix b).fieldValue
  ∧ (toolExecute table errPrefix a).isSuccess
        = (toolExecute table errPrefix b).isSuccess := by
  unfold toolExecute
  rw [h]
  cases table.lookup (pyLower (pyStrip b)) <;>
    simp [ToolResult.fieldValue, ToolResult.isSuccess]

/-- Witness for the amended C2 at the example inputs given in the spec. -/
theorem lookup_value_insensitive_w :
    pyLower (pyStrip (chars "  USA ")) = pyLower (pyStrip (chars "usa"))
  ∧ (capitalExecute (chars "  USA ")).fieldValue
      = (capitalExecute (chars "usa")).fieldValue :=
  ⟨by decide,
    (lookup_value_insensitive countryCapitals
      (chars "Capital information not available for ")
      (chars "  USA ") (chars "usa") (by decide)).1⟩

/-- C3: for every country accepted by validation, a failed generation call
(`gen = none`) makes `process_country_query` return the success-status
result whose report is the deterministic fallback built from the stored
capital, language and population — every category line carries the stored
value, so no `Information not available` marker appears. -/
theorem process_valid_gen_failure_fallback (name : PyStr)
    (h : (validateCountry name).is_valid = true) :
    ∃ cap lang pop,
      countryCapitals.lookup (pyLower (pyStrip name)) = some cap
    ∧ countryLanguages.lookup (pyLower (pyStrip name)) = some lang
    ∧ countryPopulations.lookup (pyLower (pyStrip name)) = some pop
    ∧ (processCountryQuery none name).result
        = .success (pyTitle name) (executeAllTools name)
            (fallbackFromStored (pyTitle name) cap lang pop)
            (validateCountry name) := by
  obtain ⟨cap, lang, pop, hcap, hlang, hpop⟩ := valid_lookups h
  have hc : capitalExecute name = .success cap (pyTitle name) := by
    simp [capitalExecute, toolExecute, hcap]
  have hl : languageExecute name = .success lang (pyTitle name) := by
    simp [languageExecute, toolExecute, hlang]
  have hp : populationExecute name = .success pop (pyTitle name) := by
    simp [populationExecute, toolExecute, hpop]
  refine ⟨cap, lang, pop, hcap, hlang, hpop, ?_⟩
  simp [processCountryQuery, h, generateCompleteReport, createFallbackReport,
    executeAllTools, hc, hl, hp, fallbackFromStored, fallbackCapitalLine,
    fallbackLanguageLine, fallbackPopulationLine, List.append_assoc]

/-- Witness for C3 at the example country given in the spec. -/
theorem process_valid_gen_failure_fallback_w :
    (validateCountry (chars "Germany")).is_valid = true
  ∧ ∃ cap lang pop,
      countryCapitals.lookup (pyLower (pyStrip (chars "Germany"))) = some cap
    ∧ countryLanguages.lookup (pyLower (pyStrip (chars "Germany"))) = some lang
    ∧ countryPopulations.lookup (pyLower (pyStrip (chars "Germany"))) = some pop
    ∧ (processCountryQuery none (chars "Germany")).result
        = .success (pyTitle (chars "Germany")) (executeAllTools (chars "Germany"))
            (fallbackFromStored (pyTitle (chars "Germany")) cap lang pop)
            (validateCountry (chars "Germany")) :=
  ⟨by decide, process_valid_gen_failure_fallback (chars "Germany") (by decide)⟩

/-- C4: on input whose normalized form is in none of the tables,
`process_country_query` never reaches the generation step (for any
generation outcome `gen`) and returns the error-status result whose message
embeds the input in its original casing. Totality of the embedding models
the absence of exceptions. -/
theorem process_unknown_country (gen : Option PyStr) (name : PyStr)
    (h : (validateCountry name).is_valid = false) :
    (processCountryQuery gen name).generationInvoked = false
  ∧ (processCountryQuery gen name).result
      = .error
          (chars "Sorry, I don\x27t have information about \x27" ++ name
            ++ chars "\x27 in my database.")
          (chars "Try countries like USA, India, Germany, Japan, Brazil, etc.") := by
  refine ⟨?_, ?_⟩ <;> simp [processCountryQuery, h]

/-- Witness for C4 at the example input given in the spec. -/
theorem process_unknown_country_w :
    (validateCountry (chars "Narnia")).is_valid = false
  ∧ ((processCountryQuery none (chars "Narnia")).generationInvoked = false
  ∧ (processCountryQuery none (chars "Narnia")).result
      = .error
          (chars "Sorry, I don\x27t have information about \x27" ++ chars "Narnia"
            ++ chars "\x27 in my database.")
          (chars "Try countries like USA, India, Germany, Japan, Brazil, etc.")) :=
  ⟨by decide, process_unknown_country none (chars "Narnia") (by decide)⟩

/-- C5: for every tool-results record `execute_all_tools` can produce, the
fallback report contains, for each of the three categories, either the
rendered line carrying the stored value or the rendered
`Information not available` line; the total embedding models the absence of
unhandled error paths. -/
theorem fallback_report_covers_fields (name : PyStr) :
    ((∃ v, countryCapitals.lookup (pyLower (pyStrip name)) = some v
        ∧ (chars "🏛️  Capital: " ++ v ++ chars "\n")
            <:+: createFallbackReport (executeAllTools name))
      ∨ (countryCapitals.lookup (pyLower (pyStrip name)) = none
        ∧ chars "❌ Capital: Information not available\n"
            <:+: createFallbackReport (executeAllTools name)))
  ∧ ((∃ v, countryLanguages.lookup (pyLower (pyStrip name)) = some v
        ∧ (chars "🗣️  Language: " ++ v ++ chars "\n")
            <:+: createFallbackReport (executeAllTools name))
      ∨ (countryLanguages.lookup (pyLower (pyStrip name)) = none
        ∧ chars "❌ Language: Information not available\n"
            <:+: createFallbackReport (executeAllTools name)))
  ∧ ((∃ v, countryPopulations.lookup (pyLower (pyStrip name)) = some v
        ∧ (chars "👥 Population: " ++ v ++ chars "\n")
            <:+: createFallbackReport (executeAllTools name))
      ∨ (countryPopulations.lookup (pyLower (pyStrip name)) = none
        ∧ chars "❌ Population: Information not available\n"
            <:+: createFallbackReport (executeAllTools name))) := by
  refine ⟨?_, ?_, ?_⟩
  · cases hcap : countryCapitals.lookup (pyLower (pyStrip name)) with
    | some v =>
      refine Or.inl ⟨v, rfl, ⟨fallbackHeader (pyTitle name),
        fallbackLanguageLine (languageExecute name)
          ++ fallbackPopulationLine (populationExecute name) ++ fallbackFooter, ?_⟩⟩
      simp [createFallbackReport, executeAllTools, capitalExecute, toolExecute,
        hcap, fallbackCapitalLine, List.append_assoc]
    | none =>
      refine Or.inr ⟨rfl, ⟨fallbackHeader (pyTitle name),
        fallbackLanguageLine (languageExecute name)
          ++ fallbackPopulationLine (populationExecute name) ++ fallbackFooter, ?_⟩⟩
      simp [createFallbackReport, executeAllTools, capitalExecute, toolExecute,
        hcap, fallbackCapitalLine, List.append_assoc]
  · cases hlang : countryLanguages.lookup (pyLower (pyStrip name)) with
    | some v =>
      refine Or.inl ⟨v, rfl, ⟨fallbackHeader (pyTitle name)
          ++ fallbackCapitalLine (capitalExecute name),
        fallbackPopulationLine (populationExecute name) ++ fallbackFooter, ?_⟩⟩
      simp [createFallbackReport, executeAllTools, languageExecute, toolExecute,
        hlang, fallbackLanguageLine, List.append_assoc]
    | none =>
      refine Or.inr ⟨rfl, ⟨fallbackHeader (pyTitle name)
          ++ fallbackCapitalLine (capitalExecute name),
        fallbackPopulationLine (populationExecute name) ++ fallbackFooter, ?_⟩⟩
      simp [createFallbackReport, executeAllTools, languageExecute, toolExecute,
        hlang, fallbackLanguageLine, List.append_assoc]
  · cases hpop : countryPopulations.lookup (pyLower (pyStrip name)) with
    | some v =>
      refine Or.inl ⟨v, rfl, ⟨fallbackHeader (pyTitle name)
          ++ fallbackCapitalLine (capitalExecute name)
          ++ fallbackLanguageLine (languageExecute name), fallbackFooter, ?_⟩⟩
      simp [createFallbackReport, executeAllTools, populationExecute, toolExecute,
        hpop, fallbackPopulationLine, List.append_assoc]
    | none =>
      refine Or.inr ⟨rfl, ⟨fallbackHeader (pyTitle name)
          ++ fallbackCapitalLine (capitalExecute name)
          ++ fallbackLanguageLine (languageExecute name), fallbackFooter, ?_⟩⟩
      simp [createFallbackReport, executeAllTools, populationExecute, toolExecute,
        hpop, fallbackPopulationLine, List.append_assoc]

/-- C6: in both parsers, a field that no line of the text matches keeps its
configured default (`"neutral"`/`"medium"` for mood/confidence,
`"unknown"`/`"unknown"`/`[]`/`[]` for category/severity/symptoms/potential
products); the result types have exactly the expected fields by
construction, so no field can be absent. -/
theorem parse_missing_field_default :
    (∀ text : PyStr, (∀ l ∈ pyLines text, pyStartswith (chars "MOOD:") l = false) →
        (parseMoodResponse text).mood = chars "neutral")
  ∧ (∀ text : PyStr, (∀ l ∈ pyLines text, pyStartswith (chars "CONFIDENCE:") l = false) →
        (parseMoodResponse text).confidence = chars "medium")
  ∧ (∀ text : PyStr, (∀ l ∈ pyLines text, pyStartswith (chars "CATEGORY:") l = false) →
        (parseAnalysisResponse text).category = chars "unknown")
  ∧ (∀ text : PyStr, (∀ l ∈ pyLines text, pyStartswith (chars "SEVERITY:") l = false) →
        (parseAnalysisResponse text).severity = chars "unknown")
  ∧ (∀ text : PyStr, (∀ l ∈ pyLines text, pyStartswith (chars "SYMPTOMS:") l = false) →
        (parseAnalysisResponse text).symptoms = [])
  ∧ (∀ text : PyStr, (∀ l ∈ pyLines text, pyStartswith (chars "POTENTIAL_PRODUCTS:") l = false) →
        (parseAnalysisResponse text).potential_products = []) :=
  ⟨fun _ h => foldl_parseMoodLine_mood_eq _ _ h,
   fun _ h => foldl_parseMoodLine_confidence_eq _ _ h,
   fun _ h => foldl_parseAnalysisLine_category_eq _ _ h,
   fun _ h => foldl_parseAnalysisLine_severity_eq _ _ h,
   fun _ h => foldl_parseAnalysisLine_symptoms_eq _ _ h,
   fun _ h => foldl_parseAnalysisLine_products_eq _ _ h⟩

/-- Witness for C6 on texts with no labeled line, one per parser. -/
theorem parse_missing_field_default_w :
    (parseMoodResponse (chars "I feel fine today")).mood = chars "neutral"
  ∧ (parseMoodResponse (chars "I feel fine today")).confidence = chars "medium"
  ∧ (parseAnalysisResponse (chars "just some prose")).category = chars "unknown"
  ∧ (parseAnalysisResponse (chars "just some prose")).severity = chars "unknown"
  ∧ (parseAnalysisResponse (chars "just some prose")).symptoms = []
  ∧ (parseAnalysisResponse (chars "just some prose")).potential_products = [] :=
  ⟨parse_missing_field_default.1 (chars "I feel fine today") (by decide),
   parse_missing_field_default.2.1 (chars "I feel fine today") (by decide),
   parse_missing_field_default.2.2.1 (chars "just some prose") (by decide),
   parse_missing_field_default.2.2.2.1 (chars "just some prose") (by decide),
   parse_missing_field_default.2.2.2.2.1 (chars "just some prose") (by decide),
   parse_missing_field_default.2.2.2.2.2 (chars "just some prose") (by decide)⟩

/-- C7: parsing the exact text `"MOOD: Happy\nCONFIDENCE: High"` yields
mood `"happy"` and confidence `"high"` whatever the initial defaults are. -/
theorem parse_mood_example (init : MoodData) :
    parseMoodResponseFrom init (chars "MOOD: Happy\nCONFIDENCE: High")
      = { mood := chars "happy", confidence := chars "high" } := by
  cases init
  rfl

/-- C8 counterexample: `"goodbye"` does not end the country bot session
and `"stop"` ends neither the mood system session nor the product one —
the five-token sentinel set claimed for all three programs is wrong. -/
theorem interactive_loop_tokens_cex :
    countryLoopAction (chars "goodbye") = .process
  ∧ moodLoopAction (chars "stop") = .process
  ∧ productLoopAction (chars "stop") = .process := by decide

/-- C8 (amended): each program has its own sentinel set — country
`quit`/`exit`/`bye`/`stop`, mood `quit`/`exit`/`bye`, product
`quit`/`exit`/`bye`/`goodbye` — matched case-insensitively after stripping;
input that strips to empty re-prompts instead of being processed. -/
theorem interactive_loop_tokens (raw : PyStr) :
    (countryLoopAction raw = .exitSession ↔ pyLower (pyStrip raw) ∈ countryExitTokens)
  ∧ (moodLoopAction raw = .exitSession ↔ pyLower (pyStrip raw) ∈ moodExitTokens)
  ∧ (productLoopAction raw = .exitSession ↔ pyLower (pyStrip raw) ∈ productExitTokens)
  ∧ (countryLoopAction raw = .reprompt ↔ pyStrip raw = [])
  ∧ (moodLoopAction raw = .reprompt ↔ pyStrip raw = [])
  ∧ (productLoopAction raw = .reprompt ↔ pyStrip raw = []) := by
  have h1 := loopAction_spec countryExitTokens raw (by decide)
  have h2 := loopAction_spec moodExitTokens raw (by decide)
  have h3 := loopAction_spec productExitTokens raw (by decide)
  exact ⟨h1.1, h2.1, h3.1, h1.2, h2.2, h3.2⟩

/-- C9: the three lookup tables have the same key sequence, and every
country accepted by validation makes all three tool executions succeed and
`all_successful` true. -/
theorem tables_keys_and_valid_success :
    countryCapitals.map Prod.fst = countryLanguages.map Prod.fst
  ∧ countryCapitals.map Prod.fst = countryPopulations.map Prod.fst
  ∧ ∀ name : PyStr, (validateCountry name).is_valid = true →
      ((executeAllTools name).capital.isSuccess = true
     ∧ (executeAllTools name).language.isSuccess = true
     ∧ (executeAllTools name).population.isSuccess = true
     ∧ (executeAllTools name).all_successful = true) := by
  refine ⟨capitals_languages_keys, capitals_populations_keys, ?_⟩
  intro name h
  obtain ⟨cap, lang, pop, hcap, hlang, hpop⟩ := valid_lookups h
  have hc : capitalExecute name = .success cap (pyTitle name) := by
    simp [capitalExecute, toolExecute, hcap]
  have hl : languageExecute name = .success lang (pyTitle name) := by
    simp [languageExecute, toolExecute, hlang]
  have hp : populationExecute name = .success pop (pyTitle name) := by
    simp [populationExecute, toolExecute, hpop]
  simp [executeAllTools, hc, hl, hp, ToolResult.isSuccess]

/-- Witness for C9 at a concrete table country. -/
theorem tables_keys_and_valid_success_w :
    (validateCountry (chars "India")).is_valid = true
  ∧ ((executeAllTools (chars "India")).capital.isSuccess = true
   ∧ (executeAllTools (chars "India")).language.isSuccess = true
   ∧ (executeAllTools (chars "India")).population.isSuccess = true
   ∧ (executeAllTools (chars "India")).all_successful = true) :=
  ⟨by decide, tables_keys_and_valid_success.2.2 (chars "India") (by decide)⟩

/-- C10: for every pair of generation outcomes and every user message, the
run result carries a non-`none` activity suggestion exactly when the
detected mood is one of sad/stressed/anxious/angry, and the
activity-suggester agent is invoked exactly in that case. -/
theorem handoff_iff_intervention (moodResp activityResp : Option PyStr)
    (choiceIx : Nat) (userMessage : PyStr) :
    ((moodHandoffRun moodResp activityResp choiceIx userMessage).result.activity_suggestion.isSome = true
       ↔ (analyzeMood moodResp).mood ∈ interventionMoods)
  ∧ ((moodHandoffRun moodResp activityResp choiceIx userMessage).suggesterInvoked = true
       ↔ (analyzeMood moodResp).mood ∈ interventionMoods) := by
  unfold moodHandoffRun
  by_cases h : (analyzeMood moodResp).mood ∈ interventionMoods <;> simp [h]
